import Mathlib

/-!
Verification development for the reactor training simulator
(`simulator/reactor_logic.py` and `simulator/ai_mentor.py`).

The Python code is shallowly embedded: Python floats are modelled as
exact rationals (ℚ), mutation of the `ReactorState` dataclass becomes
explicit state passing, and the per-session `action_history` list is
carried in a `Session` record.  Wall-clock fields (`real_world_time`)
and the static `safety_systems` dictionary are never read or branched
on by the functions under study and are omitted from the state record.
-/

/-- Embedding of the `ReactorState` dataclass from
`simulator/reactor_logic.py` (physical quantities, control inputs,
safety flags, configured limits, emergency level, simulation time). -/
structure ReactorState where
  power_level : ℚ
  temperature : ℚ
  pressure : ℚ
  neutron_flux : ℚ
  control_rod_position : ℚ
  coolant_flow_rate : ℚ
  coolant_temperature_in : ℚ
  coolant_temperature_out : ℚ
  scram_status : Bool
  power_limit : ℚ
  temp_limit : ℚ
  pressure_limit : ℚ
  is_critical : Bool
  is_stable : Bool
  emergency_level : ℕ
  simulation_time : ℚ
deriving DecidableEq

/-- The dataclass defaults of `ReactorState`:
power 20 MW, temperature 280 °C, pressure 155 bar, flux 1e13,
rods 70 % withdrawn, coolant flow 100 %, inlet 265 °C, outlet 285 °C,
no SCRAM, limits 100 MW / 350 °C / 170 bar, emergency level 0. -/
def ReactorState.default : ReactorState where
  power_level := 20
  temperature := 280
  pressure := 155
  neutron_flux := 10 ^ 13
  control_rod_position := 70
  coolant_flow_rate := 100
  coolant_temperature_in := 265
  coolant_temperature_out := 285
  scram_status := false
  power_limit := 100
  temp_limit := 350
  pressure_limit := 170
  is_critical := true
  is_stable := true
  emergency_level := 0
  simulation_time := 0

/-- Constant `self.TEMP_COEFF = -0.0005` (negative temperature coefficient). -/
def TEMP_COEFF : ℚ := -5 / 10000

/-- Constant `self.POWER_TO_TEMP = 0.15`. -/
def POWER_TO_TEMP : ℚ := 15 / 100

/-- Constant `self.COOLANT_EFFECT = 0.3`. -/
def COOLANT_EFFECT : ℚ := 3 / 10

/-- Constant `self.NEUTRON_LIFETIME = 0.0001` seconds. -/
def NEUTRON_LIFETIME : ℚ := 1 / 10000

/-- Constant `self.time_step = 0.1` seconds. -/
def time_step : ℚ := 1 / 10

/-- Embedding of `ReactorSimulation.check_safety_limits`: resets the
emergency level to 0, raises it through the 90 % power / 85 % temperature
/ 90 % pressure / 95 % bands, and on breach of a hard temperature or
pressure limit sets level 4 and the SCRAM flag (auto SCRAM). -/
def check_safety_limits (s : ReactorState) : ReactorState :=
  let lvl : ℕ := 0
  let lvl := if s.power_level > s.power_limit * (9 / 10) then max lvl 1 else lvl
  let lvl := if s.temperature > s.temp_limit * (85 / 100) then max lvl 2 else lvl
  let lvl := if s.pressure > s.pressure_limit * (9 / 10) then max lvl 2 else lvl
  let lvl := if s.temperature > s.temp_limit * (95 / 100) then 3 else lvl
  let lvl := if s.pressure > s.pressure_limit * (95 / 100) then 3 else lvl
  if s.temperature > s.temp_limit ∨ s.pressure > s.pressure_limit then
    { s with emergency_level := 4, scram_status := true }
  else
    { s with emergency_level := lvl }

/-- Embedding of `ReactorSimulation.calculate_physics`: one forward
time step.  Reactivity from rod deviation and temperature feedback,
flux multiplied by `1 + reactivity·Δt/Λ`, power proportional to flux,
temperature integrated from heat minus cooling, coolant outlet updated
when flow is positive, pressure recomputed linearly, then the safety
check runs and simulation time advances by `Δt`. -/
def calculate_physics (s : ReactorState) : ReactorState :=
  let rod_reactivity := (s.control_rod_position - 50) / 100 * (2 / 100)
  let temp_reactivity := (s.temperature - 300) * TEMP_COEFF
  let total_reactivity := rod_reactivity + temp_reactivity
  let neutron_flux := s.neutron_flux * (1 + total_reactivity * time_step / NEUTRON_LIFETIME)
  let power_level := neutron_flux / 10 ^ 13 * 100
  let heat_generation := power_level * POWER_TO_TEMP
  let cooling :=
    s.coolant_flow_rate / 100 * COOLANT_EFFECT * (s.temperature - s.coolant_temperature_in)
  let temperature := s.temperature + (heat_generation - cooling) * time_step
  let coolant_temperature_out :=
    if s.coolant_flow_rate > 0 then
      s.coolant_temperature_in + heat_generation / (s.coolant_flow_rate / 100 + 1 / 10)
    else
      s.coolant_temperature_out
  let pressure := 150 + (temperature - 280) * (1 / 2) + (power_level - 20) * (2 / 10)
  let s1 :=
    { s with
      neutron_flux := neutron_flux
      power_level := power_level
      temperature := temperature
      coolant_temperature_out := coolant_temperature_out
      pressure := pressure }
  let s2 := check_safety_limits s1
  { s2 with simulation_time := s2.simulation_time + time_step }

/-- Embedding of one entry of `ReactorSimulation.action_history`
(`{'time': ..., 'action': ..., 'value': ..., 'state_before': ...}`). -/
structure ActionRecord where
  time : ℚ
  action : String
  value : ℚ
  state_before : ReactorState
deriving DecidableEq

/-- The mutable parts of a `ReactorSimulation` session touched by
`apply_student_action`: the reactor state and the action history. -/
structure Session where
  state : ReactorState
  action_history : List ActionRecord
deriving DecidableEq

/-- Embedding of `ReactorSimulation.apply_student_action`: records the
action in the history, then dispatches on the action kind, clamping rod
position to [0,100] and coolant flow to [0,150]; an unrecognized kind
falls through the `if`/`elif` chain (the Python function returns `True`
in every case). -/
def apply_student_action (sess : Session) (action_type : String) (value : ℚ) : Session :=
  let s := sess.state
  let history := sess.action_history ++ [⟨s.simulation_time, action_type, value, s⟩]
  let s2 :=
    if action_type = "control_rod" then
      { s with control_rod_position := max 0 (min 100 value) }
    else if action_type = "coolant_flow" then
      { s with coolant_flow_rate := max 0 (min 150 value) }
    else if action_type = "scram" then
      { s with scram_status := true, control_rod_position := 0 }
    else if action_type = "reset_scram" then
      { s with scram_status := false }
    else if action_type = "power_demand" then
      if s.power_level < value * (95 / 100) then
        { s with control_rod_position := min 100 (s.control_rod_position + 5) }
      else if s.power_level > value * (105 / 100) then
        { s with control_rod_position := max 0 (s.control_rod_position - 5) }
      else s
    else s
  { state := s2, action_history := history }

/-- The maximum severity implied by the current values against the
configured limits, written as the spec's severity table (hard breach 4,
95 % band 3, 85 % temperature / 90 % pressure band 2, 90 % power 1). -/
def severity_level (s : ReactorState) : ℕ :=
  if s.temperature > s.temp_limit ∨ s.pressure > s.pressure_limit then 4
  else if s.temperature > s.temp_limit * (95 / 100) ∨
      s.pressure > s.pressure_limit * (95 / 100) then 3
  else if s.temperature > s.temp_limit * (85 / 100) ∨
      s.pressure > s.pressure_limit * (9 / 10) then 2
  else if s.power_level > s.power_limit * (9 / 10) then 1
  else 0

/-- The spec's state invariant: the stored emergency level equals the
maximum severity implied by the current values, and level 4 implies the
SCRAM flag. -/
def EmergencyInvariant (s : ReactorState) : Prop :=
  s.emergency_level = severity_level s ∧ (s.emergency_level = 4 → s.scram_status = true)

instance (s : ReactorState) : Decidable (EmergencyInvariant s) := by
  unfold EmergencyInvariant
  infer_instance

/-!
### Feedback engine (`simulator/ai_mentor.py`, class `EnhancedAIMentor`)
Python floats again become ℚ.  The module-level `import` statements of
`ai_mentor.py` are recorded explicitly, because the function body of
`generate_personalized_feedback` refers to the global name `random`,
and Python resolves that name against the module globals at call time.
The values `random.random()` and `random.choice(...)` would produce are
supplied through an explicit `RandomSource` parameter.
-/

/-- One feedback item `{type, message, suggestion, priority, category}`. -/
structure FeedbackItem where
  type : String
  message : String
  suggestion : String
  priority : ℕ
  category : String
deriving DecidableEq

/-- The `learning_analysis` part of a student profile read by
`generate_personalized_feedback`: `weaknesses` (list of scenario
categories) and `learning_style`. -/
structure StudentProfile where
  weaknesses : List String
  learning_style : String
deriving DecidableEq

/-- Explicit source for the module-level randomness: the value the
`random.random()` draw would return, and the indices the two
`random.choice` calls would pick. -/
structure RandomSource where
  draw : ℚ
  topicIndex : ℕ
  tipIndex : ℕ
deriving DecidableEq

/-- The names bound at module level in `simulator/ai_mentor.py`
(`import json`, `from typing import Dict, List, Tuple`,
`from datetime import datetime, timedelta`, `import numpy as np`).
`random` is not among them. -/
def ai_mentor_globals : List String :=
  ["json", "Dict", "List", "Tuple", "datetime", "timedelta", "np"]

/-- Dictionary `knowledge_base['nuclear_principles']`: three topics of three tips
each, in the dictionary's insertion order. -/
def nuclear_principles : List (String × List String) :=
  [("reactivity_control",
    ["Control rods absorb neutrons to regulate chain reaction",
     "Reactivity is affected by temperature, pressure, and burnup",
     "Prompt criticality must be avoided at all costs"]),
   ("heat_transfer",
    ["Coolant removes heat and moderates neutrons in PWRs",
     "Heat transfer coefficients depend on flow regime",
     "Decay heat continues after shutdown (7% immediately)"]),
   ("safety_systems",
    ["Multiple redundant safety systems (Defense in Depth)",
     "Passive safety systems require no operator action",
     "Containment is the final barrier against radiation release"])]

/-- Embedding of `EnhancedAIMentor._get_emergency_procedure`. -/
def get_emergency_procedure (level : ℕ) : String :=
  if level = 1 then "Monitor closely. Parameters approaching limits."
  else if level = 2 then "Prepare for action. Consider reducing power."
  else if level = 3 then
    "Take corrective action. Increase coolant flow, consider rod insertion."
  else if level = 4 then
    "EMERGENCY! Initiate SCRAM immediately. Activate emergency cooling."
  else "Unknown emergency level"

/-- Python `topic.replace('_', ' ').title()` for the underscore-joined
lowercase topic keys: split on underscores, capitalize each word. -/
def pyTitle (s : String) : String :=
  String.intercalate " " ((s.splitOn "_").map String.capitalize)

/-- The safety item appended first when `emergency_level > 0`. -/
def safety_items (emergency : ℕ) : List FeedbackItem :=
  if emergency > 0 then
    [⟨"critical",
      "EMERGENCY LEVEL " ++ toString emergency ++ "! Immediate action required.",
      get_emergency_procedure emergency, 1, "safety"⟩]
  else []

/-- The items appended by the `for weakness in weaknesses` loop, one
pass per listed weakness, in list order. -/
def weakness_items (power : ℚ) (weaknesses : List String) : List FeedbackItem :=
  weaknesses.flatMap fun w =>
    if w = "startup" ∧ power < 30 then
      [⟨"educational", "Focus area: Reactor Startup",
        "Remember: gradual rod withdrawal, monitor temperature closely", 2, "operation"⟩]
    else if w = "transient" ∧ |power - 50| > 20 then
      [⟨"suggestion", "Power stability needs improvement",
        "Try smaller adjustments and wait for system response", 2, "operation"⟩]
    else []

/-- The last `n` elements of a list (`history[-n:]` for a list of
length at least `n`, the whole list otherwise). -/
def lastN {α : Type} (n : ℕ) (l : List α) : List α :=
  l.drop (l.length - n)

/-- The rapid-adjustment caution item. -/
def caution_item : FeedbackItem :=
  ⟨"warning", "Frequent control adjustments detected",
   "Try planning your actions. Reactors respond slowly (seconds to minutes)",
   3, "technique"⟩

/-- The learning-style specific items: for `rapid_experimental` with
more than five recorded actions, a caution when at least three of the
last five actions are rod movements; for `deliberate_calculative` with
fewer than two actions, an encouragement. -/
def style_items (style : String) (action_history : List ActionRecord) :
    List FeedbackItem :=
  if style = "rapid_experimental" ∧ action_history.length > 5 then
    let recent_actions := lastN 5 action_history
    let rod_changes := recent_actions.filter fun a => a.action = "control_rod"
    if rod_changes.length ≥ 3 then [caution_item] else []
  else if style = "deliberate_calculative" ∧ action_history.length < 2 then
    [⟨"encouragement", "Good caution, but don't be afraid to act",
      "Nuclear reactors have multiple safety systems. Try small changes to see effects.",
      3, "technique"⟩]
  else []

/-- The feedback list built by `generate_personalized_feedback` up to
(but not including) the theory-tip block: safety item, then weakness
items, then style items, in the order the Python appends them. -/
def feedback_before_tip (reactor_state : ReactorState)
    (student_profile : StudentProfile) (action_history : List ActionRecord) :
    List FeedbackItem :=
  safety_items reactor_state.emergency_level
    ++ weakness_items reactor_state.power_level student_profile.weaknesses
    ++ style_items student_profile.learning_style action_history

/-- The theory tip chosen by the two `random.choice` calls. -/
def theory_tip (rng : RandomSource) : FeedbackItem :=
  let pair := nuclear_principles.getD (rng.topicIndex % nuclear_principles.length) ("", [])
  let tip := pair.2.getD (rng.tipIndex % pair.2.length) ""
  ⟨"educational", "Nuclear Theory: " ++ pyTitle pair.1, tip, 4, "theory"⟩

/-- The ascending-priority comparison used for `feedback.sort(key=lambda x: x['priority'])`. -/
def priority_le (a b : FeedbackItem) : Bool :=
  a.priority ≤ b.priority

/-- The value `generate_personalized_feedback` computes once the
`random` name resolves: optionally append the theory tip when the draw
is below 0.3, stable-sort by ascending priority, keep the first five. -/
def feedback_list (rng : RandomSource) (reactor_state : ReactorState)
    (student_profile : StudentProfile) (action_history : List ActionRecord) :
    List FeedbackItem :=
  let feedback := feedback_before_tip reactor_state student_profile action_history
  let feedback := if rng.draw < 3 / 10 then feedback ++ [theory_tip rng] else feedback
  (feedback.mergeSort priority_le).take 5

/-- A Python `NameError` raised when a global name fails to resolve. -/
inductive PyNameError where
  | undefined (name : String)
deriving DecidableEq

/-- Embedding of `EnhancedAIMentor.generate_personalized_feedback`.
Evaluating `random.random()` resolves the global name `random` against
the module globals; when it is absent the call raises `NameError`
instead of returning a list, so the result type is `Except`. -/
def generate_personalized_feedback (rng : RandomSource)
    (reactor_state : ReactorState) (student_profile : StudentProfile)
    (action_history : List ActionRecord) :
    Except PyNameError (List FeedbackItem) :=
  if "random" ∈ ai_mentor_globals then
    Except.ok (feedback_list rng reactor_state student_profile action_history)
  else
    Except.error (PyNameError.undefined "random")

/-!
### Scoring engine (`EnhancedAIMentor.calculate_grade`)
`np.mean` and `np.std` are NumPy's arithmetic mean and population
standard deviation.  The standard deviation is only ever compared
against the constants 15 and 10; since it is a non-negative square
root, `std > c` (for `c ≥ 0`) is equivalent to `variance > c²`, and
the embedding works with the variance and squared thresholds so that
everything stays inside ℚ.  Python's `round(x, 1)` rounds half to
even; `pyRound1` implements that on exact rationals. -/

/-- Arithmetic mean (`np.mean`). -/
def listMean (l : List ℚ) : ℚ := l.sum / l.length

/-- Population variance, i.e. the square of `np.std`. -/
def listVariance (l : List ℚ) : ℚ :=
  ((l.map fun x => (x - listMean l) ^ 2).sum) / l.length

/-- Python `max(l, default=d)`: the maximum of a non-empty list, `d` for `[]`. -/
def pyMaxD (l : List ℚ) (d : ℚ) : ℚ :=
  match l with
  | [] => d
  | x :: xs => xs.foldl max x

/-- Round half to even to the nearest integer (Python `round`). -/
def bankersRound (q : ℚ) : ℤ :=
  if q - Int.floor q < 1 / 2 then Int.floor q
  else if q - Int.floor q > 1 / 2 then Int.floor q + 1
  else if Int.floor q % 2 = 0 then Int.floor q else Int.floor q + 1

/-- Python `round(x, 1)`. -/
def pyRound1 (q : ℚ) : ℚ := (bankersRound (q * 10) : ℚ) / 10

/-- One entry of the `actions` list as `calculate_grade` reads it:
`a.get('timestamp', 0)` and `a.get('action')`. -/
structure ActionEntry where
  timestamp : ℚ
  action : String
deriving DecidableEq

/-- One entry of the stored `feedback` list as `calculate_grade` reads
it: `f.get('type')` and `f.get('timestamp', 0)`. -/
structure FeedbackRecord where
  type : String
  timestamp : ℚ
deriving DecidableEq

/-- The `session_data` dictionary consumed by `calculate_grade`:
state history, action list, feedback received, and the target power
(`session_data.get('target_power', 50)` — the default is the
caller's concern, the stored value is carried here). -/
structure SessionData where
  state_history : List ReactorState
  actions : List ActionEntry
  feedback : List FeedbackRecord
  target_power : ℚ
deriving DecidableEq

/-- The part of `student_profile` read by `calculate_grade`:
`student_profile.get('level', 'beginner')`. -/
structure StudentInfo where
  level : String
deriving DecidableEq

/-- The three sub-scores of the returned `breakdown` dictionary. -/
structure GradeBreakdown where
  safety : ℚ
  efficiency : ℚ
  knowledge : ℚ
deriving DecidableEq

/-- The dictionary returned by `calculate_grade`. -/
structure GradeReport where
  final_score : ℚ
  letter_grade : String
  breakdown : GradeBreakdown
  strengths : List String
  areas_for_improvement : List String
deriving DecidableEq

/-- Embedding of `EnhancedAIMentor._identify_strengths`. -/
def identify_strengths (safety efficiency knowledge : ℚ) : List String :=
  (if safety ≥ 85 then ["Strong safety awareness"] else [])
    ++ (if efficiency ≥ 80 then ["Good operational efficiency"] else [])
    ++ (if knowledge ≥ 75 then ["Good theoretical application"] else [])

/-- Embedding of `EnhancedAIMentor._identify_improvements`. -/
def identify_improvements (safety efficiency knowledge : ℚ) : List String :=
  (if safety < 70 then ["Safety procedures need more attention"] else [])
    ++ (if efficiency < 65 then ["Work on operational stability"] else [])
    ++ (if knowledge < 60 then ["Focus on applying nuclear theory"] else [])

/-- Embedding of `EnhancedAIMentor.calculate_grade`: safety, efficiency
and knowledge sub-scores, weighted final score, letter grade, and the
qualitative strengths / improvements lists. -/
def calculate_grade (session_data : SessionData) (student_profile : StudentInfo) :
    GradeReport :=
  let state_history := session_data.state_history
  let actions := session_data.actions
  let feedback_received := session_data.feedback
  let safety_violations := (feedback_received.filter fun f => f.type = "critical").length
  let powers := state_history.map fun s => s.power_level
  let avg_power := if state_history ≠ [] then listMean powers else 0
  let power_var := if state_history.length > 1 then listVariance powers else 0
  let temp_excursions := (state_history.filter fun s => s.temperature > 320).length
  let safety_score : ℚ := 100
  let safety_score := safety_score - safety_violations * 20
  let safety_score := safety_score - temp_excursions * 5
  let safety_score := max 0 safety_score
  let efficiency_score : ℚ := 100
  let efficiency_score :=
    if power_var > 15 ^ 2 then efficiency_score - 30
    else if power_var > 10 ^ 2 then efficiency_score - 15
    else efficiency_score
  let target_power := session_data.target_power
  let efficiency_score :=
    if avg_power > 0 then
      efficiency_score - min (|avg_power - target_power| / target_power * 100) 40
    else efficiency_score
  let efficiency_score := max 0 efficiency_score
  let knowledge_score : ℚ := 100
  let critical_feedback := feedback_received.filter fun f => f.type = "critical"
  let knowledge_score :=
    if critical_feedback ≠ [] then
      let last_critical_time := pyMaxD (critical_feedback.map fun f => f.timestamp) 0
      let actions_after := actions.filter fun a => a.timestamp > last_critical_time
      let corrective_actions :=
        (actions_after.filter fun a =>
          a.action = "coolant_flow" ∨ a.action = "control_rod").length
      if corrective_actions > 0 then knowledge_score + 20 else knowledge_score - 30
    else knowledge_score
  let knowledge_score :=
    if student_profile.level = "beginner" ∧ safety_score > 70 then knowledge_score + 10
    else if student_profile.level = "advanced" ∧ safety_score < 90 then knowledge_score - 10
    else knowledge_score
  let knowledge_score := max 0 (min 100 knowledge_score)
  let final_score :=
    safety_score * (4 / 10) + efficiency_score * (3 / 10) + knowledge_score * (3 / 10)
  let letter_grade :=
    if final_score ≥ 90 then "A"
    else if final_score ≥ 80 then "B"
    else if final_score ≥ 70 then "C"
    else if final_score ≥ 60 then "D"
    else "F"
  { final_score := pyRound1 final_score
    letter_grade := letter_grade
    breakdown :=
      { safety := pyRound1 safety_score
        efficiency := pyRound1 efficiency_score
        knowledge := pyRound1 knowledge_score }
    strengths := identify_strengths safety_score efficiency_score knowledge_score
    areas_for_improvement :=
      identify_improvements safety_score efficiency_score knowledge_score }

/-!
### Theorems
-/

/-- Rounding `pyRound1` is the identity on integers. -/
theorem pyRound1_intCast (n : ℤ) : pyRound1 (n : ℚ) = n := by
  have h : ((n : ℚ) * 10) = ((n * 10 : ℤ) : ℚ) := by push_cast; ring
  unfold pyRound1 bankersRound
  rw [h, Int.floor_intCast, sub_self]
  norm_num

/-- C4: for every session and every input value, applying a
rod-position action stores a control-rod position within [0,100] and
applying a coolant-flow action stores a flow rate within [0,150]; the
clamp happens inside `apply_student_action` itself. -/
theorem apply_action_clamps (sess : Session) (v : ℚ) :
    (0 ≤ (apply_student_action sess "control_rod" v).state.control_rod_position ∧
      (apply_student_action sess "control_rod" v).state.control_rod_position ≤ 100) ∧
    (0 ≤ (apply_student_action sess "coolant_flow" v).state.coolant_flow_rate ∧
      (apply_student_action sess "coolant_flow" v).state.coolant_flow_rate ≤ 150) := by
  have h1 : (apply_student_action sess "control_rod" v).state.control_rod_position
      = max 0 (min 100 v) := rfl
  have h2 : (apply_student_action sess "coolant_flow" v).state.coolant_flow_rate
      = max 0 (min 150 v) := rfl
  rw [h1, h2]
  exact ⟨⟨le_max_left 0 _, max_le (by norm_num) (min_le_left 100 v)⟩,
    ⟨le_max_left 0 _, max_le (by norm_num) (min_le_left 150 v)⟩⟩

/-- C8: scoring is deterministic — two calls of `calculate_grade` on
identical session data and identical student profile yield the same
report (final score, letter grade, breakdown, strengths and
improvements lists). -/
theorem calculate_grade_deterministic (d1 d2 : SessionData) (p1 p2 : StudentInfo)
    (hd : d1 = d2) (hp : p1 = p2) : calculate_grade d1 p1 = calculate_grade d2 p2 := by
  subst hd; subst hp; rfl

/-- Witness for `calculate_grade_deterministic` at a concrete trajectory. -/
theorem calculate_grade_deterministic_witness :
    calculate_grade ⟨[ReactorState.default], [⟨1, "control_rod"⟩], [⟨"critical", 0⟩], 50⟩
        ⟨"beginner"⟩ =
      calculate_grade ⟨[ReactorState.default], [⟨1, "control_rod"⟩], [⟨"critical", 0⟩], 50⟩
        ⟨"beginner"⟩ :=
  calculate_grade_deterministic _ _ _ _ rfl rfl

/-- C9: the safety sub-score reported in the grade breakdown equals
100 minus 20 per critical feedback item minus 5 per state-history entry
with temperature above 320, floored at 0. -/
theorem safety_subscore_formula (d : SessionData) (p : StudentInfo) :
    (calculate_grade d p).breakdown.safety =
      max 0 (100 - ((d.feedback.filter fun f => f.type = "critical").length : ℚ) * 20
        - ((d.state_history.filter fun s => s.temperature > 320).length : ℚ) * 5) := by
  have key : ∀ a b : ℕ,
      pyRound1 (max 0 (100 - (a : ℚ) * 20 - (b : ℚ) * 5))
        = max 0 (100 - (a : ℚ) * 20 - (b : ℚ) * 5) := by
    intro a b
    have h : (max 0 (100 - (a : ℚ) * 20 - (b : ℚ) * 5))
        = ((max 0 (100 - (a : ℤ) * 20 - (b : ℤ) * 5) : ℤ) : ℚ) := by
      push_cast
      rfl
    rw [h, pyRound1_intCast]
  exact key _ _

/-- C10: for every randomness source whose draw falls below the 0.3
threshold (indeed for every randomness source), and for every reactor
state, profile and action history, `generate_personalized_feedback`
fails with a `NameError` on the unbound global `random` instead of
returning a feedback list. -/
theorem feedback_nameerror_on_tip_branch (rng : RandomSource) (s : ReactorState)
    (p : StudentProfile) (hist : List ActionRecord) (hdraw : rng.draw < 3 / 10) :
    generate_personalized_feedback rng s p hist =
      Except.error (PyNameError.undefined "random") := by
  have h : "random" ∉ ai_mentor_globals := by decide
  unfold generate_personalized_feedback
  rw [if_neg h]

/-- Witness for `feedback_nameerror_on_tip_branch` at a concrete draw of 0.25. -/
theorem feedback_nameerror_on_tip_branch_witness :
    (RandomSource.mk (1 / 4) 1 2).draw < 3 / 10 ∧
      generate_personalized_feedback ⟨1 / 4, 1, 2⟩ ReactorState.default
          ⟨["startup"], "balanced"⟩ [] =
        Except.error (PyNameError.undefined "random") :=
  ⟨by norm_num, feedback_nameerror_on_tip_branch _ _ _ _ (by norm_num)⟩

/-- C6 (code bug): at a concrete input — the default reactor state, an
empty learning profile, an empty action history — the feedback call
produces the `NameError` on `random` rather than any (sorted, bounded)
feedback list, because `simulator/ai_mentor.py` never imports `random`
yet unconditionally evaluates `random.random()` on line 207. -/
theorem feedback_default_call_errors :
    generate_personalized_feedback ⟨0, 0, 0⟩ ReactorState.default ⟨[], "balanced"⟩ [] =
      Except.error (PyNameError.undefined "random") := by
  have h : "random" ∉ ai_mentor_globals := by decide
  unfold generate_personalized_feedback
  rw [if_neg h]

/-- C1 counterexample: starting from the default state heated to
500 °C, one physics step leaves the temperature (350.45 °C) above the
hard 350 °C limit, so the safety check trips — emergency level 4 and
SCRAM flag set — yet the control-rod position stays at 70 %, not 0:
the auto trip never forces the rods in. -/
theorem auto_trip_rod_counterexample :
    (calculate_physics { ReactorState.default with temperature := 500 }).temperature >
        (calculate_physics { ReactorState.default with temperature := 500 }).temp_limit ∧
      (calculate_physics { ReactorState.default with temperature := 500 }).emergency_level = 4 ∧
      (calculate_physics { ReactorState.default with temperature := 500 }).scram_status = true ∧
      (calculate_physics { ReactorState.default with temperature := 500 }).control_rod_position
          ≠ 0 := by
  refine ⟨by norm_num [calculate_physics, check_safety_limits, TEMP_COEFF, POWER_TO_TEMP,
    COOLANT_EFFECT, NEUTRON_LIFETIME, time_step, ReactorState.default], ?_, ?_, ?_⟩ <;>
    norm_num [calculate_physics, check_safety_limits, TEMP_COEFF, POWER_TO_TEMP,
      COOLANT_EFFECT, NEUTRON_LIFETIME, time_step, ReactorState.default]

/-- C1 amended: whenever temperature or pressure exceeds its hard
limit, the safety-limit check sets emergency level 4 and the SCRAM
flag, but leaves the control-rod position untouched; a physics step
likewise never changes the rod position (so rods stay wherever they
were while tripped — they reach 0 only through the manual SCRAM
action). -/
theorem auto_trip_sets_level4_and_scram (s : ReactorState)
    (h : s.temperature > s.temp_limit ∨ s.pressure > s.pressure_limit) :
    (check_safety_limits s).emergency_level = 4 ∧
      (check_safety_limits s).scram_status = true ∧
      (check_safety_limits s).control_rod_position = s.control_rod_position ∧
      (calculate_physics s).control_rod_position = s.control_rod_position := by
  refine ⟨?_, ?_, ?_, ?_⟩
  · simp only [check_safety_limits]
    rw [if_pos h]
  · simp only [check_safety_limits]
    rw [if_pos h]
  · simp only [check_safety_limits]
    split <;> rfl
  · simp only [calculate_physics, check_safety_limits]
    split <;> rfl

/-- Witness for `auto_trip_sets_level4_and_scram`: the default state at
400 °C is above the 350 °C hard limit; the check trips and keeps the
rods at their 70 % position. -/
theorem auto_trip_sets_level4_and_scram_witness :
    (({ ReactorState.default with temperature := 400 } : ReactorState).temperature >
        ({ ReactorState.default with temperature := 400 } : ReactorState).temp_limit ∨
      ({ ReactorState.default with temperature := 400 } : ReactorState).pressure >
        ({ ReactorState.default with temperature := 400 } : ReactorState).pressure_limit) ∧
      (check_safety_limits { ReactorState.default with temperature := 400 }).emergency_level
          = 4 ∧
      (check_safety_limits { ReactorState.default with temperature := 400 }).scram_status
          = true ∧
      (check_safety_limits { ReactorState.default with temperature := 400 }).control_rod_position
          = 70 := by
  have h : ({ ReactorState.default with temperature := 400 } : ReactorState).temperature >
      ({ ReactorState.default with temperature := 400 } : ReactorState).temp_limit ∨
      ({ ReactorState.default with temperature := 400 } : ReactorState).pressure >
      ({ ReactorState.default with temperature := 400 } : ReactorState).pressure_limit := by
    left
    show (400 : ℚ) > 350
    norm_num
  have hmain := auto_trip_sets_level4_and_scram _ h
  exact ⟨h, hmain.1, hmain.2.1, hmain.2.2.1.trans (by norm_num [ReactorState.default])⟩

/-- C5 counterexample: applying the unrecognized action kind `"foo"`
leaves the reactor state unchanged, but the session's action history is
mutated — the action is appended before the kind is inspected (and the
Python function returns `True`, so nothing is rejected). -/
theorem unknown_action_history_counterexample :
    (apply_student_action ⟨ReactorState.default, []⟩ "foo" 5).state = ReactorState.default ∧
      (apply_student_action ⟨ReactorState.default, []⟩ "foo" 5).action_history ≠ [] := by
  refine ⟨rfl, ?_⟩
  simp [apply_student_action]

/-- C5 amended: an unrecognized action kind leaves the reactor state
unchanged, but it is not rejected: the call still appends the action
record to the session's history (and reports success). -/
theorem unknown_action_appends_history (sess : Session) (a : String) (v : ℚ)
    (h : a ∉ ["control_rod", "coolant_flow", "scram", "reset_scram", "power_demand"]) :
    (apply_student_action sess a v).state = sess.state ∧
      (apply_student_action sess a v).action_history =
        sess.action_history ++ [⟨sess.state.simulation_time, a, v, sess.state⟩] := by
  simp only [List.mem_cons, List.not_mem_nil, or_false, not_or] at h
  obtain ⟨h1, h2, h3, h4, h5⟩ := h
  simp only [apply_student_action]
  rw [if_neg h1, if_neg h2, if_neg h3, if_neg h4, if_neg h5]
  exact ⟨rfl, trivial⟩

/-- Witness for `unknown_action_appends_history` at the concrete
unrecognized kind `"foo"`. -/
theorem unknown_action_appends_history_witness :
    ("foo" ∉ ["control_rod", "coolant_flow", "scram", "reset_scram", "power_demand"]) ∧
      (apply_student_action ⟨ReactorState.default, []⟩ "foo" 5).state = ReactorState.default ∧
      (apply_student_action ⟨ReactorState.default, []⟩ "foo" 5).action_history =
        [] ++ [⟨0, "foo", 5, ReactorState.default⟩] :=
  ⟨by decide, unknown_action_appends_history ⟨ReactorState.default, []⟩ "foo" 5 (by decide)⟩

/-- The safety check always stores exactly the maximum severity implied
by the current values against the configured limits. -/
theorem check_level_eq_severity (s : ReactorState) :
    (check_safety_limits s).emergency_level = severity_level s := by
  simp only [check_safety_limits, severity_level]
  split_ifs <;> (try rfl) <;> (try simp_all) <;>
    (rcases ‹_ ∨ _› with hx | hx <;> linarith)

/-- The safety check does not change the fields the severity is read
from, so the implied severity is unchanged by running it. -/
theorem severity_level_check (s : ReactorState) :
    severity_level (check_safety_limits s) = severity_level s := by
  simp only [check_safety_limits]
  split <;> rfl

/-- The state produced by the safety check satisfies the emergency
invariant: stored level = implied severity, and level 4 implies SCRAM. -/
theorem check_invariant (s : ReactorState) :
    EmergencyInvariant (check_safety_limits s) := by
  constructor
  · exact (check_level_eq_severity s).trans (severity_level_check s).symm
  · simp only [check_safety_limits]
    split
    · intro _; rfl
    · intro h4
      exfalso
      revert h4
      split_ifs <;> simp

/-- C3 counterexample: in a tripped state (400 °C, level 4, SCRAM set)
the invariant holds, but applying the `reset_scram` action clears the
shutdown flag while the emergency level stays 4 — `apply_student_action`
never re-runs the safety check, so the operation breaks the
level-4-implies-shutdown half of the invariant. -/
theorem reset_scram_invariant_counterexample :
    EmergencyInvariant
        { ReactorState.default with
          temperature := 400, emergency_level := 4, scram_status := true } ∧
      ¬ EmergencyInvariant (apply_student_action
        ⟨{ ReactorState.default with
           temperature := 400, emergency_level := 4, scram_status := true }, []⟩
        "reset_scram" 0).state := by
  decide

/-- C3 amended: every physics step re-establishes the invariant (level
= implied severity, and level 4 implies SCRAM), and every applied
action other than `reset_scram` preserves it; `reset_scram` is the one
operation that can break it, by clearing the flag at level 4. -/
theorem emergency_invariant_maintained :
    (∀ s : ReactorState, EmergencyInvariant (calculate_physics s)) ∧
      (∀ (sess : Session) (a : String) (v : ℚ), a ≠ "reset_scram" →
        EmergencyInvariant sess.state →
        EmergencyInvariant (apply_student_action sess a v).state) := by
  constructor
  · intro s
    exact check_invariant _
  · intro sess a v hne hinv
    simp only [apply_student_action]
    split_ifs <;> first | exact hinv | exact ⟨hinv.1, fun _ => rfl⟩

/-- Witness for `emergency_invariant_maintained`: a step from the
default state satisfies the invariant, and a rod action on a calm state
(pressure lowered to 150 so the stored level 0 matches the implied
severity) preserves it. -/
theorem emergency_invariant_maintained_witness :
    EmergencyInvariant (calculate_physics ReactorState.default) ∧
      ("control_rod" ≠ "reset_scram" ∧
        EmergencyInvariant ({ ReactorState.default with pressure := 150 } : ReactorState) ∧
        EmergencyInvariant (apply_student_action
          ⟨{ ReactorState.default with pressure := 150 }, []⟩ "control_rod" 40).state) := by
  have hcalm : EmergencyInvariant ({ ReactorState.default with pressure := 150 } : ReactorState) := by
    constructor
    · norm_num [severity_level, ReactorState.default]
    · norm_num [ReactorState.default]
  refine ⟨emergency_invariant_maintained.1 ReactorState.default, by decide, hcalm, ?_⟩
  exact emergency_invariant_maintained.2
    ⟨{ ReactorState.default with pressure := 150 }, []⟩ "control_rod" 40
    (by decide) hcalm

/-- The caution item is never produced by the safety rule (its type is
`"warning"`, the safety item's is `"critical"`). -/
theorem caution_not_in_safety (e : ℕ) : caution_item ∉ safety_items e := by
  unfold safety_items
  split
  · intro h
    rw [List.mem_singleton] at h
    exact absurd (congrArg FeedbackItem.type h)
      (show ¬ ("warning" = "critical") by decide)
  · exact List.not_mem_nil _

/-- The caution item is never produced by the weakness loop (those
items have types `"educational"` and `"suggestion"`). -/
theorem caution_not_in_weakness (power : ℚ) (ws : List String) :
    caution_item ∉ weakness_items power ws := by
  unfold weakness_items
  intro h
  rw [List.mem_flatMap] at h
  obtain ⟨w, _, hmem⟩ := h
  revert hmem
  split_ifs <;> intro hmem
  · rw [List.mem_singleton] at hmem
    exact absurd (congrArg FeedbackItem.type hmem)
      (show ¬ ("warning" = "educational") by decide)
  · rw [List.mem_singleton] at hmem
    exact absurd (congrArg FeedbackItem.type hmem)
      (show ¬ ("warning" = "suggestion") by decide)
  · exact List.not_mem_nil _ hmem

/-- C7 amended: the rapid-adjustment caution is emitted exactly when
the profile's learning style is `rapid_experimental`, the TOTAL action
history is longer than five entries, and at least three of the last
five actions are rod movements.  So at least two rod actions in the
window are indeed necessary (three are), and with fewer than two the
caution is never emitted — but the decision also depends on the total
history length, not only on the five-action window. -/
theorem caution_emission_iff (state : ReactorState) (profile : StudentProfile)
    (history : List ActionRecord) :
    caution_item ∈ feedback_before_tip state profile history ↔
      (profile.learning_style = "rapid_experimental" ∧ history.length > 5 ∧
        3 ≤ ((lastN 5 history).filter fun a => a.action = "control_rod").length) := by
  unfold feedback_before_tip
  rw [List.mem_append, List.mem_append]
  simp only [caution_not_in_safety, caution_not_in_weakness, false_or]
  simp only [style_items]
  split_ifs with h1 h2
  · exact iff_of_true (List.mem_singleton.mpr rfl) ⟨h1.1, h1.2, h2⟩
  · exact iff_of_false (List.not_mem_nil _) fun hr => h2 hr.2.2
  · exact iff_of_false
      (fun hmem => absurd (congrArg FeedbackItem.type (List.mem_singleton.mp hmem))
        (show ¬ ("warning" = "encouragement") by decide))
      fun hr => h1 ⟨hr.1, hr.2.1⟩
  · exact iff_of_false (List.not_mem_nil _) fun hr => h1 ⟨hr.1, hr.2.1⟩

/-- C7 counterexample: two histories with the same five-action window
(five rod actions), for a `rapid_experimental` profile.  The shorter
history (exactly five actions) emits no caution because the code also
requires `len(action_history) > 5`; prepending one coolant action — the
window is unchanged — makes the caution appear.  The caution is
therefore not decided only by the most recent fixed-size window. -/
theorem caution_window_counterexample :
    lastN 5 (List.replicate 5 (⟨0, "control_rod", 50, ReactorState.default⟩ : ActionRecord)) =
      lastN 5 ((⟨0, "coolant_flow", 80, ReactorState.default⟩ : ActionRecord) ::
        List.replicate 5 ⟨0, "control_rod", 50, ReactorState.default⟩) ∧
      caution_item ∈ feedback_before_tip ReactorState.default ⟨[], "rapid_experimental"⟩
        ((⟨0, "coolant_flow", 80, ReactorState.default⟩ : ActionRecord) ::
          List.replicate 5 ⟨0, "control_rod", 50, ReactorState.default⟩) ∧
      caution_item ∉ feedback_before_tip ReactorState.default ⟨[], "rapid_experimental"⟩
        (List.replicate 5 (⟨0, "control_rod", 50, ReactorState.default⟩ : ActionRecord)) := by
  refine ⟨rfl, by decide, by decide⟩

/-- C2 counterexample: the state with rods fully inserted (0 %, within
[0,100]) and default coolant flow (100 %, within [0,150]) at 300 °C has
flux multiplier `1 + (−0.01)·Δt/Λ = −9`, so one physics step drives the
neutron flux to −9·10¹³ and the recomputed pressure to −31.275: a
single step can produce negative flux and pressure from in-range
control inputs. -/
theorem physics_step_negativity_counterexample :
    (0 ≤ ({ ReactorState.default with
            temperature := 300, control_rod_position := 0 } : ReactorState).control_rod_position ∧
      ({ ReactorState.default with
         temperature := 300, control_rod_position := 0 } : ReactorState).control_rod_position ≤ 100 ∧
      0 ≤ ({ ReactorState.default with
             temperature := 300, control_rod_position := 0 } : ReactorState).coolant_flow_rate ∧
      ({ ReactorState.default with
         temperature := 300, control_rod_position := 0 } : ReactorState).coolant_flow_rate ≤ 150) ∧
      (calculate_physics { ReactorState.default with
        temperature := 300, control_rod_position := 0 }).neutron_flux < 0 ∧
      (calculate_physics { ReactorState.default with
        temperature := 300, control_rod_position := 0 }).pressure < 0 := by
  refine ⟨⟨?_, ?_, ?_, ?_⟩, ?_, ?_⟩ <;>
    norm_num [calculate_physics, check_safety_limits, TEMP_COEFF, POWER_TO_TEMP,
      COOLANT_EFFECT, NEUTRON_LIFETIME, time_step, ReactorState.default]

/-- The four updated physical fields of one physics step, written as
closed-form equations over the pre-step state (the safety check and the
time update do not touch them). -/
theorem calculate_physics_fields (s : ReactorState) :
    (calculate_physics s).neutron_flux =
        s.neutron_flux * (1 + ((s.control_rod_position - 50) / 100 * (2 / 100)
          + (s.temperature - 300) * TEMP_COEFF) * time_step / NEUTRON_LIFETIME) ∧
      (calculate_physics s).power_level = (calculate_physics s).neutron_flux / 10 ^ 13 * 100 ∧
      (calculate_physics s).temperature =
        s.temperature + ((calculate_physics s).power_level * POWER_TO_TEMP
          - s.coolant_flow_rate / 100 * COOLANT_EFFECT *
            (s.temperature - s.coolant_temperature_in)) * time_step ∧
      (calculate_physics s).pressure =
        150 + ((calculate_physics s).temperature - 280) * (1 / 2)
          + ((calculate_physics s).power_level - 20) * (2 / 10) := by
  refine ⟨?_, ?_, ?_, ?_⟩ <;>
    · simp only [calculate_physics, check_safety_limits]
      split <;> (try split) <;> rfl

/-- C2 amended: one physics step preserves non-negativity of
temperature, pressure and flux provided the pre-step state is itself
physically sensible (non-negative flux, temperature and coolant inlet
temperature) and the temperature is low enough for the flux multiplier
to stay non-negative (`temperature ≤ 282 + 0.4·rod_position`); without
that extra bound the step can go negative, as the counterexample shows. -/
theorem physics_step_nonneg (s : ReactorState)
    (hrod0 : 0 ≤ s.control_rod_position) (hrod1 : s.control_rod_position ≤ 100)
    (hflow0 : 0 ≤ s.coolant_flow_rate) (hflow1 : s.coolant_flow_rate ≤ 150)
    (hflux : 0 ≤ s.neutron_flux) (htemp : 0 ≤ s.temperature)
    (hcin : 0 ≤ s.coolant_temperature_in)
    (hmult : s.temperature ≤ 282 + (2 / 5) * s.control_rod_position) :
    0 ≤ (calculate_physics s).temperature ∧
      0 ≤ (calculate_physics s).pressure ∧
      0 ≤ (calculate_physics s).neutron_flux := by
  obtain ⟨hf, hp, ht, hpr⟩ := calculate_physics_fields s
  simp only [TEMP_COEFF, POWER_TO_TEMP, COOLANT_EFFECT, NEUTRON_LIFETIME, time_step]
    at hf ht
  have hm : 0 ≤ 1 + ((s.control_rod_position - 50) / 100 * (2 / 100)
      + (s.temperature - 300) * (-5 / 10000)) * (1 / 10) / (1 / 10000) := by
    linarith
  have hflux2 : 0 ≤ (calculate_physics s).neutron_flux := by
    rw [hf]; exact mul_nonneg hflux hm
  have hpow : 0 ≤ (calculate_physics s).power_level := by
    rw [hp]
    exact mul_nonneg (div_nonneg hflux2 (by norm_num)) (by norm_num)
  have htemp2 : 0 ≤ (calculate_physics s).temperature := by
    rw [ht]
    rcases le_or_lt s.coolant_temperature_in s.temperature with hcase | hcase
    · have h1 : s.coolant_flow_rate * (s.temperature - s.coolant_temperature_in)
          ≤ 150 * (s.temperature - s.coolant_temperature_in) :=
        mul_le_mul_of_nonneg_right hflow1 (by linarith)
      have h2 : 150 * (s.temperature - s.coolant_temperature_in) ≤ 150 * s.temperature := by
        linarith
      linarith
    · have h3 : s.coolant_flow_rate * (s.temperature - s.coolant_temperature_in) ≤ 0 :=
        mul_nonpos_of_nonneg_of_nonpos hflow0 (by linarith)
      linarith
  refine ⟨htemp2, ?_, hflux2⟩
  rw [hpr]
  linarith

/-- Witness for `physics_step_nonneg`: the default state satisfies all
the hypotheses (rods 70 ∈ [0,100], flow 100 ∈ [0,150], flux 10¹³ ≥ 0,
280 °C ≤ 282 + 0.4·70 = 310), and the step stays non-negative. -/
theorem physics_step_nonneg_witness :
    (0 ≤ ReactorState.default.control_rod_position ∧
      ReactorState.default.control_rod_position ≤ 100 ∧
      0 ≤ ReactorState.default.coolant_flow_rate ∧
      ReactorState.default.coolant_flow_rate ≤ 150 ∧
      0 ≤ ReactorState.default.neutron_flux ∧
      0 ≤ ReactorState.default.temperature ∧
      0 ≤ ReactorState.default.coolant_temperature_in ∧
      ReactorState.default.temperature
        ≤ 282 + (2 / 5) * ReactorState.default.control_rod_position) ∧
      (0 ≤ (calculate_physics ReactorState.default).temperature ∧
        0 ≤ (calculate_physics ReactorState.default).pressure ∧
        0 ≤ (calculate_physics ReactorState.default).neutron_flux) := by
  constructor
  · refine ⟨?_, ?_, ?_, ?_, ?_, ?_, ?_, ?_⟩ <;> norm_num [ReactorState.default]
  · exact physics_step_nonneg ReactorState.default
      (by norm_num [ReactorState.default]) (by norm_num [ReactorState.default])
      (by norm_num [ReactorState.default]) (by norm_num [ReactorState.default])
      (by norm_num [ReactorState.default]) (by norm_num [ReactorState.default])
      (by norm_num [ReactorState.default]) (by norm_num [ReactorState.default])
